import Mathlib

/-!
Shallow embedding of the tikka-contracts raffle system.

Sources embedded here:
* `src/contracts/raffle/src/instance/mod.rs` — the single-instance raffle
  contract (`Contract::init`, `deposit_prize`, `buy_ticket`, `finalize_raffle`,
  `claim_prize`, plus the storage helpers `read_raffle`, `read_tickets`,
  `read_ticket_count`, `next_ticket_id`).
* `src/contracts/raffle/src/lib.rs` — the `RaffleFactory` contract
  (`init`, `create_raffle`, `get_raffles`).

Modelling conventions:
* Soroban `Address` values are modelled as `Nat`; `String` stays `String`;
  `i128` amounts are `Int`; `u32`/`u64` counters are `Nat` with an explicit
  `% 2 ^ 32` (resp. `% 2 ^ 64`) wherever the Rust source performs machine
  arithmetic that can overflow.
* Persistent storage is a record `ContractState` with one field per
  `DataKey` variant of the source.  Per-key maps (`TicketCount(Address)`,
  `Ticket(u32)`) are association lists.
* Each contract entry point returns an `OpOut`: the Rust `Result`, the
  post-call storage state, and the ordered list of externally visible
  effects (`require_auth` calls, storage writes, token transfers, event
  publications) in source order. Rust's early `return Err(..)` happens in
  every operation before any storage write or transfer, so on an error the
  post state equals the pre state and the trace holds only the effects (at
  most the leading `require_auth`) that the source performed before
  returning.
-/

def U32 : Nat := 2 ^ 32

def U64 : Nat := 2 ^ 64

/-- Ledger-supplied ambient data: `env.ledger().timestamp()`,
`env.ledger().sequence()` and `env.current_contract_address()`. -/
structure LedgerEnv where
  timestamp : Nat
  sequence : Nat
  contractAddress : Nat
  deriving DecidableEq, Repr

/-- The `Error` enum of `instance/mod.rs` (discriminants 1..19). -/
inductive Error where
  | RaffleNotFound
  | RaffleInactive
  | TicketsSoldOut
  | InsufficientPayment
  | NotAuthorized
  | PrizeNotDeposited
  | PrizeAlreadyClaimed
  | InvalidParameters
  | ContractPaused
  | InsufficientTickets
  | RaffleEnded
  | RaffleStillRunning
  | NoTicketsSold
  | MultipleTicketsNotAllowed
  | PrizeAlreadyDeposited
  | NotWinner
  | ArithmeticOverflow
  | AlreadyInitialized
  | NotInitialized
  deriving DecidableEq, Repr

deriving instance DecidableEq for Except

/-- The `Raffle` record of `instance/mod.rs`. -/
structure Raffle where
  creator : Nat
  description : String
  end_time : Nat
  max_tickets : Nat
  allow_multiple : Bool
  ticket_price : Int
  payment_token : Nat
  prize_amount : Int
  tickets_sold : Nat
  is_active : Bool
  prize_deposited : Bool
  prize_claimed : Bool
  winner : Option Nat
  deriving DecidableEq, Repr

/-- The `Ticket` record of `instance/mod.rs`. -/
structure Ticket where
  id : Nat
  buyer : Nat
  purchase_time : Nat
  ticket_number : Nat
  deriving DecidableEq, Repr

/-- The `DataKey` enum of `instance/mod.rs`. -/
inductive DataKey where
  | Raffle
  | Tickets
  | TicketCount (buyer : Nat)
  | Ticket (id : Nat)
  | NextTicketId
  | Factory
  deriving DecidableEq, Repr

/-- The four `#[contractevent]` records of `instance/mod.rs`. -/
inductive Event where
  | RaffleInitialized (creator : Nat) (end_time : Nat) (max_tickets : Nat)
      (ticket_price : Int) (payment_token : Nat) (description : String)
  | TicketPurchased (buyer : Nat) (ticket_ids : List Nat) (quantity : Nat)
      (total_paid : Int) (timestamp : Nat)
  | RaffleFinalized (winner : Nat) (winning_ticket_id : Nat)
      (total_tickets_sold : Nat) (randomness_source : String) (finalized_at : Nat)
  | PrizeClaimed (winner : Nat) (gross_amount : Int) (net_amount : Int)
      (platform_fee : Int) (claimed_at : Nat)
  deriving DecidableEq, Repr

/-- Externally visible effects of one contract call, in source order. -/
inductive Effect where
  | requireAuth (principal : Nat)
  | storageWrite (key : DataKey)
  | transfer (source : Nat) (dest : Nat) (amount : Int)
  | publish (e : Event)
  deriving DecidableEq, Repr

/-- Persistent storage of one raffle-instance contract: one field per
`DataKey` variant. `none` models an absent key. -/
structure ContractState where
  raffle : Option Raffle
  tickets : List Nat
  ticketCounts : List (Nat × Nat)
  ticketsById : List (Nat × Ticket)
  nextTicketIdVal : Option Nat
  factory : Option Nat
  deriving DecidableEq, Repr

/-- The storage state of a freshly deployed instance contract: no key set. -/
def emptyState : ContractState :=
  { raffle := none, tickets := [], ticketCounts := [], ticketsById := []
    nextTicketIdVal := none, factory := none }

/-- Association-list lookup, modelling `storage().get(&key)`. -/
def getAssoc {α : Type} (k : Nat) : List (Nat × α) → Option α
  | [] => none
  | (k', v') :: rest => if k' = k then some v' else getAssoc k rest

/-- Association-list update, modelling `storage().set(&key, &v)`. -/
def setAssoc {α : Type} (k : Nat) (v : α) : List (Nat × α) → List (Nat × α)
  | [] => [(k, v)]
  | (k', v') :: rest => if k' = k then (k, v) :: rest else (k', v') :: setAssoc k v rest

/-- `read_raffle` of `instance/mod.rs`: `get(Raffle).ok_or(NotInitialized)`. -/
def read_raffle (s : ContractState) : Except Error Raffle :=
  match s.raffle with
  | some r => Except.ok r
  | none => Except.error Error.NotInitialized

/-- `read_tickets` of `instance/mod.rs`: `get(Tickets).unwrap_or(vec![])`;
the model stores the list directly, with the empty default built in. -/
def read_tickets (s : ContractState) : List Nat := s.tickets

/-- `read_ticket_count` of `instance/mod.rs`: `get(TicketCount(buyer)).unwrap_or(0)`. -/
def read_ticket_count (s : ContractState) (buyer : Nat) : Nat :=
  (getAssoc buyer s.ticketCounts).getD 0

/-- `next_ticket_id` of `instance/mod.rs`: reads the `NextTicketId` counter
(default 0), computes the unchecked u32 sum `current + 1` (hence the
`% 2 ^ 32`), stores it back and returns it. -/
def next_ticket_id (s : ContractState) : Nat × ContractState :=
  let current := s.nextTicketIdVal.getD 0
  let next := (current + 1) % U32
  (next, { s with nextTicketIdVal := some next })

/-- Result of one contract entry point: the Rust `Result`, the post-call
storage state, and the effect trace in source order. -/
structure OpOut (ρ : Type) where
  res : Except Error ρ
  state : ContractState
  trace : List Effect
  deriving DecidableEq, Repr

/-- `Contract::init` of `instance/mod.rs`.  Note: the source performs no
`require_auth` in `init`; the trace therefore holds only writes and the
event. -/
def Contract.init (s : ContractState) (env : LedgerEnv) (factory : Nat) (creator : Nat)
    (description : String) (end_time : Nat) (max_tickets : Nat) (allow_multiple : Bool)
    (ticket_price : Int) (payment_token : Nat) (prize_amount : Int) : OpOut Unit :=
  if s.raffle.isSome then ⟨Except.error Error.AlreadyInitialized, s, []⟩
  else if end_time < env.timestamp ∧ end_time ≠ 0 then
    ⟨Except.error Error.InvalidParameters, s, []⟩
  else if max_tickets = 0 then ⟨Except.error Error.InvalidParameters, s, []⟩
  else if ticket_price ≤ 0 then ⟨Except.error Error.InvalidParameters, s, []⟩
  else if prize_amount ≤ 0 then ⟨Except.error Error.InvalidParameters, s, []⟩
  else
    let raffle : Raffle :=
      { creator := creator, description := description, end_time := end_time
        max_tickets := max_tickets, allow_multiple := allow_multiple
        ticket_price := ticket_price, payment_token := payment_token
        prize_amount := prize_amount, tickets_sold := 0, is_active := true
        prize_deposited := false, prize_claimed := false, winner := none }
    ⟨Except.ok (), { s with raffle := some raffle, factory := some factory },
      [Effect.storageWrite DataKey.Raffle, Effect.storageWrite DataKey.Factory,
       Effect.publish (Event.RaffleInitialized creator end_time max_tickets
         ticket_price payment_token description)]⟩

/-- `Contract::deposit_prize` of `instance/mod.rs`. `read_raffle` runs first
(so on `NotInitialized` no `require_auth` happened), then
`raffle.creator.require_auth()`, then the checks, the prize transfer and the
single write. -/
def Contract.deposit_prize (s : ContractState) (env : LedgerEnv) : OpOut Unit :=
  match s.raffle with
  | none => ⟨Except.error Error.NotInitialized, s, []⟩
  | some raffle =>
    if raffle.is_active = false then
      ⟨Except.error Error.RaffleInactive, s, [Effect.requireAuth raffle.creator]⟩
    else if raffle.prize_deposited then
      ⟨Except.error Error.PrizeAlreadyDeposited, s, [Effect.requireAuth raffle.creator]⟩
    else
      ⟨Except.ok (), { s with raffle := some { raffle with prize_deposited := true } },
        [Effect.requireAuth raffle.creator,
         Effect.transfer raffle.creator env.contractAddress raffle.prize_amount,
         Effect.storageWrite DataKey.Raffle]⟩

/-- `Contract::buy_ticket` of `instance/mod.rs`. `buyer.require_auth()` runs
first; the `u32` increments (`current + 1` in `next_ticket_id`,
`raffle.tickets_sold + 1`, `tickets_sold += 1`, `current_count + 1`) are the
unchecked machine operations of the source, hence the `% 2 ^ 32`. -/
def Contract.buy_ticket (s : ContractState) (env : LedgerEnv) (buyer : Nat) : OpOut Nat :=
  let auth := [Effect.requireAuth buyer]
  match s.raffle with
  | none => ⟨Except.error Error.NotInitialized, s, auth⟩
  | some raffle =>
    if raffle.is_active = false then ⟨Except.error Error.RaffleInactive, s, auth⟩
    else if raffle.end_time ≠ 0 ∧ raffle.end_time < env.timestamp then
      ⟨Except.error Error.RaffleEnded, s, auth⟩
    else if raffle.max_tickets ≤ raffle.tickets_sold then
      ⟨Except.error Error.TicketsSoldOut, s, auth⟩
    else
      let current_count := read_ticket_count s buyer
      if raffle.allow_multiple = false ∧ 0 < current_count then
        ⟨Except.error Error.MultipleTicketsNotAllowed, s, auth⟩
      else
        let idState := next_ticket_id s
        let ticket_id := idState.fst
        let timestamp := env.timestamp
        let ticket : Ticket :=
          { id := ticket_id, buyer := buyer, purchase_time := timestamp
            ticket_number := (raffle.tickets_sold + 1) % U32 }
        let raffle' := { raffle with tickets_sold := (raffle.tickets_sold + 1) % U32 }
        let s' := { idState.snd with
          ticketsById := setAssoc ticket_id ticket idState.snd.ticketsById
          tickets := idState.snd.tickets ++ [buyer]
          ticketCounts := setAssoc buyer ((current_count + 1) % U32) idState.snd.ticketCounts
          raffle := some raffle' }
        ⟨Except.ok raffle'.tickets_sold, s',
          auth ++
            [Effect.transfer buyer env.contractAddress raffle.ticket_price,
             Effect.storageWrite DataKey.NextTicketId,
             Effect.storageWrite (DataKey.Ticket ticket_id),
             Effect.storageWrite DataKey.Tickets,
             Effect.storageWrite (DataKey.TicketCount buyer),
             Effect.storageWrite DataKey.Raffle,
             Effect.publish (Event.TicketPurchased buyer [ticket_id] 1
               raffle.ticket_price timestamp)]⟩

/-- `Contract::finalize_raffle` of `instance/mod.rs`.  The seed is the
unchecked u64 sum `timestamp + sequence` (hence `% 2 ^ 64`); the winner index
is `seed % tickets.len()` cast `as u32` (hence `% 2 ^ 32`).  The source then
does `tickets.get(winner_index).unwrap()`: whenever `tickets` is non-empty the
index is in range, so the `getD` default is never produced by a reachable
call; an empty list would make the source trap. -/
def Contract.finalize_raffle (s : ContractState) (env : LedgerEnv) (source : String) :
    OpOut Nat :=
  match s.raffle with
  | none => ⟨Except.error Error.NotInitialized, s, []⟩
  | some raffle =>
    let auth := [Effect.requireAuth raffle.creator]
    if raffle.is_active = false then ⟨Except.error Error.RaffleInactive, s, auth⟩
    else if raffle.end_time ≠ 0 ∧ env.timestamp < raffle.end_time then
      ⟨Except.error Error.RaffleStillRunning, s, auth⟩
    else if raffle.tickets_sold = 0 then ⟨Except.error Error.NoTicketsSold, s, auth⟩
    else
      let tickets := read_tickets s
      let seed := (env.timestamp + env.sequence) % U64
      let winner_index := (seed % tickets.length) % U32
      let winner := tickets.getD winner_index 0
      let raffle' := { raffle with is_active := false, winner := some winner }
      ⟨Except.ok winner, { s with raffle := some raffle' },
        auth ++
          [Effect.storageWrite DataKey.Raffle,
           Effect.publish (Event.RaffleFinalized winner winner_index
             raffle'.tickets_sold source env.timestamp)]⟩

/-- `Contract::claim_prize` of `instance/mod.rs`. `winner.require_auth()`
runs first; on success the source transfers, publishes the event and only
then writes `prize_claimed = true`. -/
def Contract.claim_prize (s : ContractState) (env : LedgerEnv) (winner : Nat) : OpOut Int :=
  let auth := [Effect.requireAuth winner]
  match s.raffle with
  | none => ⟨Except.error Error.NotInitialized, s, auth⟩
  | some raffle =>
    if raffle.winner ≠ some winner then ⟨Except.error Error.NotWinner, s, auth⟩
    else if raffle.prize_deposited = false then
      ⟨Except.error Error.PrizeNotDeposited, s, auth⟩
    else if raffle.prize_claimed then ⟨Except.error Error.PrizeAlreadyClaimed, s, auth⟩
    else
      let net_amount := raffle.prize_amount
      let claimed_at := env.timestamp
      ⟨Except.ok net_amount, { s with raffle := some { raffle with prize_claimed := true } },
        auth ++
          [Effect.transfer env.contractAddress winner net_amount,
           Effect.publish (Event.PrizeClaimed winner raffle.prize_amount net_amount 0
             claimed_at),
           Effect.storageWrite DataKey.Raffle]⟩

/-- `Contract::get_raffle` of `instance/mod.rs`: read-only. -/
def Contract.get_raffle (s : ContractState) : Except Error Raffle := read_raffle s

def Effect.isTransfer : Effect → Bool
  | Effect.transfer _ _ _ => true
  | _ => false

def Effect.isWrite : Effect → Bool
  | Effect.storageWrite _ => true
  | _ => false

def Effect.isAuth : Effect → Bool
  | Effect.requireAuth _ => true
  | _ => false

/-- The token transfers a call performed, in order. -/
def transfersOf (tr : List Effect) : List Effect := tr.filter Effect.isTransfer

/-- The events a call published, in order. -/
def eventsOf : List Effect → List Event
  | [] => []
  | Effect.publish e :: rest => e :: eventsOf rest
  | _ :: rest => eventsOf rest

/-- `authBeforeWrites p tr = true` iff every storage write in `tr` is
preceded by a `require_auth p` effect. -/
def authBeforeWrites (p : Nat) : List Effect → Bool
  | [] => true
  | Effect.storageWrite _ :: _ => false
  | Effect.requireAuth q :: rest => if q = p then true else authBeforeWrites p rest
  | _ :: rest => authBeforeWrites p rest

/-- One lifecycle call (operation name plus its caller-chosen arguments and
the ledger data the host supplies for that call). -/
inductive Op where
  | deposit (env : LedgerEnv)
  | buy (env : LedgerEnv) (buyer : Nat)
  | finalize (env : LedgerEnv) (source : String)
  | claim (env : LedgerEnv) (winner : Nat)
  deriving DecidableEq, Repr

/-- Post state of one lifecycle call (failing calls leave state unchanged,
mirroring the source's early returns). -/
def applyOp (s : ContractState) : Op → ContractState
  | Op.deposit env => (Contract.deposit_prize s env).state
  | Op.buy env b => (Contract.buy_ticket s env b).state
  | Op.finalize env src => (Contract.finalize_raffle s env src).state
  | Op.claim env w => (Contract.claim_prize s env w).state

/-- Fold a call sequence over the state. -/
def runOps (s : ContractState) (ops : List Op) : ContractState := ops.foldl applyOp s

/-- Whether the given call is a `claim_prize` that returns `Ok`. -/
def claimSucceeds (s : ContractState) : Op → Bool
  | Op.claim env w =>
    match (Contract.claim_prize s env w).res with
    | Except.ok _ => true
    | Except.error _ => false
  | _ => false

/-- Number of successful `claim_prize` calls (each of which pays the prize)
along a call sequence. -/
def countSuccessfulClaims (s : ContractState) : List Op → Nat
  | [] => 0
  | o :: rest => (if claimSucceeds s o then 1 else 0) + countSuccessfulClaims (applyOp s o) rest

/-- The stored raffle's `prize_claimed` flag (`false` if no raffle stored). -/
def prizeClaimedFlag (s : ContractState) : Bool :=
  match s.raffle with
  | some r => r.prize_claimed
  | none => false

/-- The stored raffle's `is_active` flag (`false` if no raffle stored). -/
def raffleActiveFlag (s : ContractState) : Bool :=
  match s.raffle with
  | some r => r.is_active
  | none => false

/-- The data-model invariants of the spec plus the u32 bound on
`max_tickets` that the Rust type system provides. -/
def RaffleWF (r : Raffle) : Prop :=
  r.max_tickets < U32 ∧
  r.tickets_sold ≤ r.max_tickets ∧
  (r.is_active = true → r.winner = none) ∧
  (r.prize_claimed = true → r.winner.isSome = true ∧ r.prize_deposited = true)

/-- A state holding a well-formed raffle. -/
def StateWF (s : ContractState) : Prop :=
  ∃ r, s.raffle = some r ∧ RaffleWF r

-- Factory contract (`src/contracts/raffle/src/lib.rs`).

/-- The `RaffleConfig` record built (and discarded) by
`RaffleFactory::create_raffle`; `RandomnessSource` is declared in code not
present under `src/`, so it is modelled as an opaque numeric tag. -/
structure RaffleConfig where
  description : String
  end_time : Nat
  max_tickets : Nat
  allow_multiple : Bool
  ticket_price : Int
  payment_token : Nat
  prize_amount : Int
  randomness_source : Nat
  oracle_address : Option Nat
  deriving DecidableEq, Repr

/-- Persistent storage of the factory contract (`DataKey::Admin`,
`DataKey::InstanceWasmHash`, `DataKey::RaffleInstances`). -/
structure FactoryState where
  admin : Option Nat
  wasm_hash : Option (List Nat)
  instances : Option (List Nat)
  deriving DecidableEq, Repr

/-- `RaffleFactory::init` of `lib.rs`; `none` models the
`panic!("already initialized")` path. -/
def RaffleFactory.init (s : FactoryState) (admin : Nat) (wasm : List Nat) :
    Option FactoryState :=
  if s.admin.isSome then none
  else some { admin := some admin, wasm_hash := some wasm, instances := some [] }

/-- `RaffleFactory::create_raffle` of `lib.rs`.  After
`creator.require_auth()` (an external collaborator with no storage effect)
the source unwraps the stored wasm hash and instance list (`none` here models
that trap on an uninitialized factory), builds and discards a `RaffleConfig`
from the parameters, appends `creator` to `RaffleInstances` and returns
`creator`.  No deployment happens and no configuration field is read again. -/
def RaffleFactory.create_raffle (s : FactoryState) (creator : Nat) (cfg : RaffleConfig) :
    Option (FactoryState × Nat) :=
  match s.wasm_hash, s.instances with
  | some _, some insts =>
    let _ := cfg
    some ({ s with instances := some (insts ++ [creator]) }, creator)
  | _, _ => none

/-- `RaffleFactory::get_raffles` of `lib.rs`. -/
def RaffleFactory.get_raffles (s : FactoryState) : List Nat :=
  s.instances.getD []

-- Pagination (multi-raffle variant).

/-- `MAX_PAGE_LIMIT` of `instance/mod.rs`. -/
def MAX_PAGE_LIMIT : Nat := 100

/-- Page metadata returned by `get_all_raffle_ids`. -/
structure PaginationMeta where
  total : Nat
  offset : Nat
  limit : Nat
  has_more : Bool
  deriving DecidableEq, Repr

/-- A page of raffle ids plus metadata. -/
structure RaffleIdPage where
  data : List Nat
  meta : PaginationMeta
  deriving DecidableEq, Repr

/-- Modelled from the spec: `get_all_raffle_ids(offset, limit, newest_first)`
of the multi-raffle variant, whose implementation is not under `src/` (only
its tests in `contracts/hello-world/src/test.rs` and the `MAX_PAGE_LIMIT`
constant are).  Per spec section 4.4: `limit` is clamped to the hard ceiling
`MAX_PAGE_LIMIT = 100`; the page is the `offset`-based slice of the
append-only registry, iterated newest-first (index `total-1-offset`
downward) when `newest_first` is set, of size `min(limit, total - offset)`
(0 when `offset >= total`); the metadata reports the registry size, the
offset, the clamped limit and `has_more = offset + returned_count < total`;
the registry itself is not modified. -/
def get_all_raffle_ids (registry : List Nat) (offset : Nat) (limit : Nat)
    (newest_first : Bool) : RaffleIdPage :=
  let limit' := min limit MAX_PAGE_LIMIT
  let source := if newest_first then registry.reverse else registry
  let data := (source.drop offset).take limit'
  { data := data
    meta := { total := registry.length, offset := offset, limit := limit'
              has_more := decide (offset + data.length < registry.length) } }

-- Concrete states used by witnesses and counterexamples, and the
-- buy-sequence fold used by the sold-out bound.

def runBuys (s : ContractState) (buys : List (LedgerEnv × Nat)) : ContractState :=
  buys.foldl (fun st p => (Contract.buy_ticket st p.fst p.snd).state) s

def SoldInv (s : ContractState) : Prop :=
  ∃ r, s.raffle = some r ∧ r.tickets_sold ≤ r.max_tickets ∧ r.max_tickets < U32

def wEnv : LedgerEnv := ⟨100, 7, 99⟩

def claimedRaffle : Raffle :=
  { creator := 1, description := "Audit Raffle", end_time := 0, max_tickets := 10
    allow_multiple := false, ticket_price := 10, payment_token := 3
    prize_amount := 100, tickets_sold := 1, is_active := false
    prize_deposited := true, prize_claimed := true, winner := some 7 }

def claimedState : ContractState :=
  { raffle := some claimedRaffle, tickets := [7], ticketCounts := [(7, 1)]
    ticketsById := [], nextTicketIdVal := some 1, factory := some 50 }

def freshRaffle : Raffle :=
  { creator := 1, description := "Audit Raffle", end_time := 0, max_tickets := 10
    allow_multiple := false, ticket_price := 10, payment_token := 3
    prize_amount := 100, tickets_sold := 0, is_active := true
    prize_deposited := false, prize_claimed := false, winner := none }

def freshState : ContractState :=
  { raffle := some freshRaffle, tickets := [], ticketCounts := []
    ticketsById := [], nextTicketIdVal := none, factory := some 50 }

def soldOutRaffle : Raffle :=
  { creator := 1, description := "Audit Raffle", end_time := 0, max_tickets := 1
    allow_multiple := true, ticket_price := 10, payment_token := 3
    prize_amount := 100, tickets_sold := 1, is_active := true
    prize_deposited := true, prize_claimed := false, winner := none }

def soldOutState : ContractState :=
  { raffle := some soldOutRaffle, tickets := [9], ticketCounts := [(9, 1)]
    ticketsById := [], nextTicketIdVal := some 1, factory := some 50 }

def inactiveRaffle : Raffle :=
  { creator := 1, description := "Audit Raffle", end_time := 0, max_tickets := 10
    allow_multiple := false, ticket_price := 10, payment_token := 3
    prize_amount := 100, tickets_sold := 1, is_active := false
    prize_deposited := true, prize_claimed := false, winner := some 9 }

def inactiveState : ContractState :=
  { raffle := some inactiveRaffle, tickets := [9], ticketCounts := [(9, 1)]
    ticketsById := [], nextTicketIdVal := some 1, factory := some 50 }

def oneTicketRaffle : Raffle :=
  { creator := 1, description := "Audit Raffle", end_time := 0, max_tickets := 10
    allow_multiple := false, ticket_price := 10, payment_token := 3
    prize_amount := 100, tickets_sold := 1, is_active := true
    prize_deposited := true, prize_claimed := false, winner := none }

def oneTicketState : ContractState :=
  { raffle := some oneTicketRaffle, tickets := [9], ticketCounts := [(9, 1)]
    ticketsById := [], nextTicketIdVal := some 1, factory := some 50 }

def twoTicketRaffle : Raffle :=
  { creator := 1, description := "Audit Raffle", end_time := 0, max_tickets := 10
    allow_multiple := true, ticket_price := 10, payment_token := 3
    prize_amount := 100, tickets_sold := 2, is_active := true
    prize_deposited := true, prize_claimed := false, winner := none }

def twoTicketState : ContractState :=
  { raffle := some twoTicketRaffle, tickets := [7, 8], ticketCounts := [(7, 1), (8, 1)]
    ticketsById := [], nextTicketIdVal := some 2, factory := some 50 }

def topIdRaffle : Raffle :=
  { creator := 1, description := "Audit Raffle", end_time := 0, max_tickets := 5
    allow_multiple := true, ticket_price := 10, payment_token := 3
    prize_amount := 100, tickets_sold := 1, is_active := true
    prize_deposited := true, prize_claimed := false, winner := none }

def topIdState : ContractState :=
  { raffle := some topIdRaffle, tickets := [9], ticketCounts := [(9, 1)]
    ticketsById := [], nextTicketIdVal := some 4294967295, factory := some 50 }

def wFactory : FactoryState :=
  { admin := some 2, wasm_hash := some [1, 2, 3], instances := some [5, 6] }

def wConfig : RaffleConfig :=
  { description := "Test Raffle", end_time := 0, max_tickets := 10
    allow_multiple := true, ticket_price := 1, payment_token := 3
    prize_amount := 10, randomness_source := 0, oracle_address := none }

def wConfig2 : RaffleConfig :=
  { description := "Other", end_time := 999, max_tickets := 0
    allow_multiple := false, ticket_price := -5, payment_token := 4
    prize_amount := -1, randomness_source := 1, oracle_address := some 8 }

-- Helper lemmas: per-operation shapes and invariant preservation.

theorem deposit_shape (s : ContractState) (env : LedgerEnv) :
    ((Contract.deposit_prize s env).state = s ∧
      ∃ e, (Contract.deposit_prize s env).res = Except.error e) ∨
    (∃ r, s.raffle = some r ∧ r.is_active = true ∧ r.prize_deposited = false ∧
      (Contract.deposit_prize s env).res = Except.ok () ∧
      (Contract.deposit_prize s env).state =
        { s with raffle := some { r with prize_deposited := true } }) := by
  unfold Contract.deposit_prize
  split
  · exact Or.inl ⟨rfl, Error.NotInitialized, rfl⟩
  next r h =>
    split_ifs with h1 h2
    · exact Or.inl ⟨rfl, Error.RaffleInactive, rfl⟩
    · exact Or.inl ⟨rfl, Error.PrizeAlreadyDeposited, rfl⟩
    · exact Or.inr ⟨r, h, by simpa using h1, by simpa using h2, rfl, rfl⟩

theorem buy_shape (s : ContractState) (env : LedgerEnv) (b : Nat) :
    ((Contract.buy_ticket s env b).state = s ∧
      ∃ e, (Contract.buy_ticket s env b).res = Except.error e) ∨
    (∃ r, s.raffle = some r ∧ r.is_active = true ∧ r.tickets_sold < r.max_tickets ∧
      (Contract.buy_ticket s env b).state.raffle =
        some { r with tickets_sold := (r.tickets_sold + 1) % U32 } ∧
      (Contract.buy_ticket s env b).state.tickets = s.tickets ++ [b]) := by
  unfold Contract.buy_ticket
  split
  · exact Or.inl ⟨rfl, Error.NotInitialized, rfl⟩
  next r h =>
    dsimp only
    split_ifs with h1 h2 h3 h4
    · exact Or.inl ⟨rfl, Error.RaffleInactive, rfl⟩
    · exact Or.inl ⟨rfl, Error.RaffleEnded, rfl⟩
    · exact Or.inl ⟨rfl, Error.TicketsSoldOut, rfl⟩
    · exact Or.inl ⟨rfl, Error.MultipleTicketsNotAllowed, rfl⟩
    · refine Or.inr ⟨r, h, by simpa using h1, by omega, rfl, rfl⟩

theorem finalize_shape (s : ContractState) (env : LedgerEnv) (src : String) :
    ((Contract.finalize_raffle s env src).state = s ∧
      ∃ e, (Contract.finalize_raffle s env src).res = Except.error e) ∨
    (∃ r w, s.raffle = some r ∧ r.is_active = true ∧
      (Contract.finalize_raffle s env src).state =
        { s with raffle := some { r with is_active := false, winner := some w } }) := by
  unfold Contract.finalize_raffle
  split
  · exact Or.inl ⟨rfl, Error.NotInitialized, rfl⟩
  next r h =>
    split_ifs with h1 h2 h3
    · exact Or.inl ⟨rfl, Error.RaffleInactive, rfl⟩
    · exact Or.inl ⟨rfl, Error.RaffleStillRunning, rfl⟩
    · exact Or.inl ⟨rfl, Error.NoTicketsSold, rfl⟩
    · exact Or.inr ⟨r, _, h, by simpa using h1, rfl⟩

theorem claim_shape (s : ContractState) (env : LedgerEnv) (w : Nat) :
    ((Contract.claim_prize s env w).state = s ∧
      ∃ e, (Contract.claim_prize s env w).res = Except.error e) ∨
    (∃ r, s.raffle = some r ∧ r.winner = some w ∧ r.prize_deposited = true ∧
      r.prize_claimed = false ∧
      (Contract.claim_prize s env w).res = Except.ok r.prize_amount ∧
      (Contract.claim_prize s env w).state =
        { s with raffle := some { r with prize_claimed := true } }) := by
  unfold Contract.claim_prize
  split
  · exact Or.inl ⟨rfl, Error.NotInitialized, rfl⟩
  next r h =>
    split_ifs with h1 h2 h3
    · exact Or.inl ⟨rfl, Error.NotWinner, rfl⟩
    · exact Or.inl ⟨rfl, Error.PrizeNotDeposited, rfl⟩
    · exact Or.inl ⟨rfl, Error.PrizeAlreadyClaimed, rfl⟩
    · refine Or.inr ⟨r, h, by simpa using h1, by simpa using h2, by simpa using h3, rfl, rfl⟩

theorem stepWF (s : ContractState) (o : Op) (h : StateWF s) : StateWF (applyOp s o) := by
  obtain ⟨r0, hr0, hm, hts, hw, hc⟩ := h
  cases o with
  | deposit env =>
    rcases deposit_shape s env with ⟨hs, _⟩ | ⟨r, hr, ha, hd, _, hs⟩
    · simp only [applyOp, hs]; exact ⟨r0, hr0, hm, hts, hw, hc⟩
    · rw [hr0] at hr; injection hr with hr; subst hr
      simp only [applyOp, hs]
      exact ⟨_, rfl, hm, hts, hw, fun hcl => ⟨(hc hcl).1, rfl⟩⟩
  | buy env b =>
    rcases buy_shape s env b with ⟨hs, _⟩ | ⟨r, hr, ha, hlt, hs, _⟩
    · simp only [applyOp, hs]; exact ⟨r0, hr0, hm, hts, hw, hc⟩
    · rw [hr0] at hr; injection hr with hr; subst hr
      refine ⟨_, hs, hm, ?_, hw, hc⟩
      have hmod : (r0.tickets_sold + 1) % U32 = r0.tickets_sold + 1 :=
        Nat.mod_eq_of_lt (by omega)
      simp only [hmod]
      omega
  | finalize env src =>
    rcases finalize_shape s env src with ⟨hs, _⟩ | ⟨r, w, hr, ha, hs⟩
    · simp only [applyOp, hs]; exact ⟨r0, hr0, hm, hts, hw, hc⟩
    · rw [hr0] at hr; injection hr with hr; subst hr
      simp only [applyOp, hs]
      refine ⟨_, rfl, hm, hts, ?_, ?_⟩
      · intro hact; exact absurd hact (by simp)
      · intro hcl; exact ⟨rfl, (hc hcl).2⟩
  | claim env w =>
    rcases claim_shape s env w with ⟨hs, _⟩ | ⟨r, hr, hwin, hd, hcl, _, hs⟩
    · simp only [applyOp, hs]; exact ⟨r0, hr0, hm, hts, hw, hc⟩
    · rw [hr0] at hr; injection hr with hr; subst hr
      simp only [applyOp, hs]
      refine ⟨_, rfl, hm, hts, fun hact => hw hact, fun _ => ⟨?_, hd⟩⟩
      show r0.winner.isSome = true
      rw [hwin]; rfl

theorem runWF (ops : List Op) (s : ContractState) (h : StateWF s) : StateWF (runOps s ops) := by
  induction ops generalizing s with
  | nil => exact h
  | cons o rest ih => exact ih (applyOp s o) (stepWF s o h)

theorem stepInactive (s : ContractState) (o : Op) (h : raffleActiveFlag s = false) :
    raffleActiveFlag (applyOp s o) = false := by
  cases o with
  | deposit env =>
    rcases deposit_shape s env with ⟨hs, _⟩ | ⟨r, hr, ha, _, _, hs⟩
    · simp only [applyOp, hs]; exact h
    · simp only [raffleActiveFlag, hr] at h; rw [h] at ha; cases ha
  | buy env b =>
    rcases buy_shape s env b with ⟨hs, _⟩ | ⟨r, hr, ha, _, _, _⟩
    · simp only [applyOp, hs]; exact h
    · simp only [raffleActiveFlag, hr] at h; rw [h] at ha; cases ha
  | finalize env src =>
    rcases finalize_shape s env src with ⟨hs, _⟩ | ⟨r, w, hr, ha, hs⟩
    · simp only [applyOp, hs]; exact h
    · simp only [applyOp, hs, raffleActiveFlag]
  | claim env w =>
    rcases claim_shape s env w with ⟨hs, _⟩ | ⟨r, hr, _, _, _, _, hs⟩
    · simp only [applyOp, hs]; exact h
    · simp only [raffleActiveFlag, hr] at h
      simp only [applyOp, hs, raffleActiveFlag]
      exact h

theorem runInactive (ops : List Op) (s : ContractState) (h : raffleActiveFlag s = false) :
    raffleActiveFlag (runOps s ops) = false := by
  induction ops generalizing s with
  | nil => exact h
  | cons o rest ih => exact ih (applyOp s o) (stepInactive s o h)

theorem stepClaimed (s : ContractState) (o : Op) (h : prizeClaimedFlag s = true) :
    prizeClaimedFlag (applyOp s o) = true := by
  cases o with
  | deposit env =>
    rcases deposit_shape s env with ⟨hs, _⟩ | ⟨r, hr, _, _, _, hs⟩
    · simp only [applyOp, hs]; exact h
    · simp only [prizeClaimedFlag, hr] at h
      simp only [applyOp, hs, prizeClaimedFlag]
      exact h
  | buy env b =>
    rcases buy_shape s env b with ⟨hs, _⟩ | ⟨r, hr, _, _, hs, _⟩
    · simp only [applyOp, hs]; exact h
    · simp only [prizeClaimedFlag, hr] at h
      simp only [applyOp, prizeClaimedFlag, hs]
      exact h
  | finalize env src =>
    rcases finalize_shape s env src with ⟨hs, _⟩ | ⟨r, w, hr, _, hs⟩
    · simp only [applyOp, hs]; exact h
    · simp only [prizeClaimedFlag, hr] at h
      simp only [applyOp, hs, prizeClaimedFlag]
      exact h
  | claim env w =>
    rcases claim_shape s env w with ⟨hs, _⟩ | ⟨r, hr, _, _, hcl, _, _⟩
    · simp only [applyOp, hs]; exact h
    · simp only [prizeClaimedFlag, hr] at h; rw [h] at hcl; cases hcl

theorem claimSucceedsSets (s : ContractState) (o : Op) (h : claimSucceeds s o = true) :
    prizeClaimedFlag (applyOp s o) = true := by
  cases o with
  | deposit env => simp [claimSucceeds] at h
  | buy env b => simp [claimSucceeds] at h
  | finalize env src => simp [claimSucceeds] at h
  | claim env w =>
    rcases claim_shape s env w with ⟨_, e, he⟩ | ⟨r, hr, _, _, _, _, hs⟩
    · rw [claimSucceeds, he] at h; cases h
    · simp only [applyOp, hs, prizeClaimedFlag]

theorem claimedNoSuccess (s : ContractState) (o : Op) (h : prizeClaimedFlag s = true) :
    claimSucceeds s o = false := by
  cases o with
  | deposit env => rfl
  | buy env b => rfl
  | finalize env src => rfl
  | claim env w =>
    rcases claim_shape s env w with ⟨_, e, he⟩ | ⟨r, hr, _, _, hcl, _, _⟩
    · rw [claimSucceeds, he]
    · simp only [prizeClaimedFlag, hr] at h; rw [h] at hcl; cases hcl

theorem countZeroOfClaimed (ops : List Op) (s : ContractState)
    (h : prizeClaimedFlag s = true) : countSuccessfulClaims s ops = 0 := by
  induction ops generalizing s with
  | nil => rfl
  | cons o rest ih =>
    simp only [countSuccessfulClaims, claimedNoSuccess s o h, Bool.false_eq_true,
      if_false, Nat.zero_add]
    exact ih (applyOp s o) (stepClaimed s o h)

theorem countLeOne (ops : List Op) (s : ContractState) :
    countSuccessfulClaims s ops ≤ 1 := by
  induction ops generalizing s with
  | nil => exact Nat.zero_le 1
  | cons o rest ih =>
    rw [countSuccessfulClaims]
    by_cases h : claimSucceeds s o = true
    · simp only [h, if_true,
        countZeroOfClaimed rest (applyOp s o) (claimSucceedsSets s o h)]
      omega
    · simp only [eq_false_of_ne_true h, Bool.false_eq_true, if_false, Nat.zero_add]
      exact ih (applyOp s o)

theorem init_ok_state (s : ContractState) (env : LedgerEnv) (f c : Nat) (d : String)
    (et mt : Nat) (am : Bool) (tp : Int) (ptk : Nat) (pz : Int)
    (hok : (Contract.init s env f c d et mt am tp ptk pz).res = Except.ok ()) :
    (Contract.init s env f c d et mt am tp ptk pz).state =
      { s with
        raffle := some ⟨c, d, et, mt, am, tp, ptk, pz, 0, true, false, false, none⟩,
        factory := some f } := by
  unfold Contract.init at hok ⊢
  split_ifs at hok ⊢ with h1 h2 h3 h4 h5
  all_goals simp_all

/-- C1 body, part (a): in any state whose stored raffle already has
`prize_claimed = true`, any `claim_prize` call errors, transfers nothing,
changes nothing; the error is `PrizeAlreadyClaimed` when the claimant is the
recorded winner and the prize was deposited. -/
theorem claim_prize_already_claimed (s : ContractState) (r : Raffle) (env : LedgerEnv)
    (c : Nat) (hr : s.raffle = some r) (hcl : r.prize_claimed = true) :
    (Contract.claim_prize s env c).state = s ∧
    transfersOf (Contract.claim_prize s env c).trace = [] ∧
    (∃ e, (Contract.claim_prize s env c).res = Except.error e) ∧
    (r.winner = some c → r.prize_deposited = true →
      (Contract.claim_prize s env c).res = Except.error Error.PrizeAlreadyClaimed) := by
  unfold Contract.claim_prize
  rw [hr]
  dsimp only
  split_ifs with h1 h2
  · exact ⟨rfl, rfl, ⟨Error.NotWinner, rfl⟩, fun hw _ => absurd hw h1⟩
  · exact ⟨rfl, rfl, ⟨Error.PrizeNotDeposited, rfl⟩, fun _ hd => absurd hd (by simpa using h2)⟩
  · exact ⟨rfl, rfl, ⟨Error.PrizeAlreadyClaimed, rfl⟩, fun _ _ => rfl⟩

theorem getAssoc_setAssoc {α : Type} (k : Nat) (v : α) (l : List (Nat × α)) :
    getAssoc k (setAssoc k v l) = some v := by
  induction l with
  | nil => simp [getAssoc, setAssoc]
  | cons hd tl ih =>
    rw [setAssoc]
    split_ifs with h
    · rw [getAssoc, if_pos rfl]
    · rw [getAssoc, if_neg h]
      exact ih

theorem stepSold (s : ContractState) (env : LedgerEnv) (b : Nat) (h : SoldInv s) :
    SoldInv ((Contract.buy_ticket s env b).state) := by
  obtain ⟨r0, hr0, hts, hm⟩ := h
  rcases buy_shape s env b with ⟨hs, _⟩ | ⟨r, hr, _, hlt, hs, _⟩
  · rw [hs]; exact ⟨r0, hr0, hts, hm⟩
  · rw [hr0] at hr; injection hr with hr; subst hr
    refine ⟨_, hs, ?_, hm⟩
    have hmod : (r0.tickets_sold + 1) % U32 = r0.tickets_sold + 1 :=
      Nat.mod_eq_of_lt (by omega)
    dsimp only
    rw [hmod]
    omega

theorem runSold (buys : List (LedgerEnv × Nat)) (s : ContractState) (h : SoldInv s) :
    SoldInv (runBuys s buys) := by
  induction buys generalizing s with
  | nil => exact h
  | cons p rest ih => exact ih ((Contract.buy_ticket s p.fst p.snd).state) (stepSold s p.fst p.snd h)

-- Claim theorems.

/-- C1 counterexample: on a state whose raffle already has
`prize_claimed = true` (winner 7), a `claim_prize` call by claimant 5 fails
with `NotWinner`, not `PrizeAlreadyClaimed` — the winner check runs first,
so not every call on a claimed raffle reports `PrizeAlreadyClaimed`. -/
theorem claim_prize_nonwinner_cex :
    claimedRaffle.prize_claimed = true ∧
    (Contract.claim_prize claimedState wEnv 5).res = Except.error Error.NotWinner ∧
    Error.NotWinner ≠ Error.PrizeAlreadyClaimed := by
  exact ⟨rfl, rfl, by decide⟩

/-- C1 (amended): in every state where `prize_claimed` already holds, every
`claim_prize` call fails, transfers nothing and leaves the state unchanged;
the error is `PrizeAlreadyClaimed` when the claimant is the recorded winner
of a deposited prize (as after any successful claim), and `NotWinner` or
`PrizeNotDeposited` otherwise; along any operation sequence at most one
`claim_prize` call ever succeeds, so the prize is paid at most once. -/
theorem claim_prize_pays_at_most_once (s : ContractState) (r : Raffle) (env : LedgerEnv)
    (c : Nat) (s' : ContractState) (ops : List Op)
    (hr : s.raffle = some r) (hcl : r.prize_claimed = true) :
    (Contract.claim_prize s env c).state = s ∧
    transfersOf (Contract.claim_prize s env c).trace = [] ∧
    (∃ e, (Contract.claim_prize s env c).res = Except.error e) ∧
    (r.winner = some c → r.prize_deposited = true →
      (Contract.claim_prize s env c).res = Except.error Error.PrizeAlreadyClaimed) ∧
    countSuccessfulClaims s' ops ≤ 1 := by
  obtain ⟨h1, h2, h3, h4⟩ := claim_prize_already_claimed s r env c hr hcl
  exact ⟨h1, h2, h3, h4, countLeOne ops s'⟩

theorem claim_prize_pays_at_most_once_witness :
    (claimedState.raffle = some claimedRaffle ∧ claimedRaffle.prize_claimed = true) ∧
    ((Contract.claim_prize claimedState wEnv 7).state = claimedState ∧
      transfersOf (Contract.claim_prize claimedState wEnv 7).trace = [] ∧
      (∃ e, (Contract.claim_prize claimedState wEnv 7).res = Except.error e) ∧
      (claimedRaffle.winner = some 7 → claimedRaffle.prize_deposited = true →
        (Contract.claim_prize claimedState wEnv 7).res =
          Except.error Error.PrizeAlreadyClaimed) ∧
      countSuccessfulClaims claimedState [Op.claim wEnv 7] ≤ 1) :=
  ⟨⟨rfl, rfl⟩, claim_prize_pays_at_most_once claimedState claimedRaffle wEnv 7
    claimedState [Op.claim wEnv 7] rfl rfl⟩

/-- C2 counterexample: a successful `Contract::init` call writes persisted
state (the raffle and factory keys) while its effect trace holds no
`require_auth` at all, refuting the claim that every mutating operation of
section 4.1, init included, authenticates before writing. -/
theorem init_mutates_without_auth :
    (Contract.init emptyState wEnv 50 1 "d" 0 10 false 10 3 100).res = Except.ok () ∧
    (Contract.init emptyState wEnv 50 1 "d" 0 10 false 10 3 100).trace.any Effect.isWrite
      = true ∧
    (Contract.init emptyState wEnv 50 1 "d" 0 10 false 10 3 100).trace.any Effect.isAuth
      = false := by
  exact ⟨rfl, rfl, rfl⟩

/-- C2 (amended): `deposit_prize`, `buy_ticket`, `finalize_raffle` and
`claim_prize` each invoke `require_auth` on the operation's required
principal (creator, buyer, creator, claimant) before any storage write, in
every state and for every input; `init` is excluded, as it performs no
authentication (see the counterexample). -/
theorem lifecycle_ops_auth_before_writes (s : ContractState) (env : LedgerEnv)
    (r : Raffle) (b w : Nat) (src : String) (hr : s.raffle = some r) :
    authBeforeWrites r.creator (Contract.deposit_prize s env).trace = true ∧
    authBeforeWrites b (Contract.buy_ticket s env b).trace = true ∧
    authBeforeWrites r.creator (Contract.finalize_raffle s env src).trace = true ∧
    authBeforeWrites w (Contract.claim_prize s env w).trace = true := by
  refine ⟨?_, ?_, ?_, ?_⟩
  · unfold Contract.deposit_prize
    rw [hr]
    dsimp only
    split_ifs <;> simp [authBeforeWrites]
  · unfold Contract.buy_ticket
    cases s.raffle with
    | none => simp [authBeforeWrites]
    | some r2 =>
      dsimp only
      split_ifs <;> simp [authBeforeWrites]
  · unfold Contract.finalize_raffle
    rw [hr]
    dsimp only
    split_ifs <;> simp [authBeforeWrites]
  · unfold Contract.claim_prize
    cases s.raffle with
    | none => simp [authBeforeWrites]
    | some r2 =>
      dsimp only
      split_ifs <;> simp [authBeforeWrites]

theorem lifecycle_ops_auth_before_writes_witness :
    claimedState.raffle = some claimedRaffle ∧
    (authBeforeWrites claimedRaffle.creator
        (Contract.deposit_prize claimedState wEnv).trace = true ∧
      authBeforeWrites 7 (Contract.buy_ticket claimedState wEnv 7).trace = true ∧
      authBeforeWrites claimedRaffle.creator
        (Contract.finalize_raffle claimedState wEnv "prng").trace = true ∧
      authBeforeWrites 7 (Contract.claim_prize claimedState wEnv 7).trace = true) :=
  ⟨rfl, lifecycle_ops_auth_before_writes claimedState wEnv claimedRaffle 7 7 "prng" rfl⟩

/-- C3: from any successful `init` (on fresh storage, with `max_tickets` in
u32 range), every state reached by any sequence of `deposit_prize`,
`buy_ticket`, `finalize_raffle`, `claim_prize` calls (successful or failing)
stores a raffle with `tickets_sold <= max_tickets`, `winner = none` while
active, `prize_claimed` implying a winner and a deposited prize; and once
`is_active` is false it stays false under any further calls. -/
theorem reachable_states_satisfy_invariants (env : LedgerEnv) (f c : Nat) (d : String)
    (et mt : Nat) (am : Bool) (tp : Int) (ptk : Nat) (pz : Int) (ops ops2 : List Op)
    (hmt : mt < U32)
    (hok : (Contract.init emptyState env f c d et mt am tp ptk pz).res = Except.ok ()) :
    (∃ r, (runOps (Contract.init emptyState env f c d et mt am tp ptk pz).state ops).raffle
        = some r ∧
      r.tickets_sold ≤ r.max_tickets ∧
      (r.is_active = true → r.winner = none) ∧
      (r.prize_claimed = true → r.winner.isSome = true ∧ r.prize_deposited = true)) ∧
    (raffleActiveFlag
        (runOps (Contract.init emptyState env f c d et mt am tp ptk pz).state ops) = false →
      raffleActiveFlag
        (runOps (Contract.init emptyState env f c d et mt am tp ptk pz).state (ops ++ ops2))
        = false) := by
  have hs0 := init_ok_state emptyState env f c d et mt am tp ptk pz hok
  have hwf : StateWF (Contract.init emptyState env f c d et mt am tp ptk pz).state := by
    rw [hs0]
    exact ⟨_, rfl, hmt, Nat.zero_le _, fun _ => rfl, fun h => Bool.noConfusion h⟩
  constructor
  · obtain ⟨r, hrr, _, hb, hw2, hc2⟩ := runWF ops _ hwf
    exact ⟨r, hrr, hb, hw2, hc2⟩
  · intro hin
    rw [runOps, List.foldl_append]
    exact runInactive ops2 _ hin

theorem reachable_states_satisfy_invariants_witness :
    (10 < U32 ∧
      (Contract.init emptyState wEnv 50 1 "d" 0 10 false 10 3 100).res = Except.ok ()) ∧
    ((∃ r, (runOps (Contract.init emptyState wEnv 50 1 "d" 0 10 false 10 3 100).state
          [Op.buy wEnv 7, Op.finalize wEnv "prng"]).raffle = some r ∧
        r.tickets_sold ≤ r.max_tickets ∧
        (r.is_active = true → r.winner = none) ∧
        (r.prize_claimed = true → r.winner.isSome = true ∧ r.prize_deposited = true)) ∧
      (raffleActiveFlag
          (runOps (Contract.init emptyState wEnv 50 1 "d" 0 10 false 10 3 100).state
            [Op.buy wEnv 7, Op.finalize wEnv "prng"]) = false →
        raffleActiveFlag
          (runOps (Contract.init emptyState wEnv 50 1 "d" 0 10 false 10 3 100).state
            ([Op.buy wEnv 7, Op.finalize wEnv "prng"] ++ [Op.claim wEnv 7])) = false)) :=
  ⟨⟨by decide, rfl⟩,
    reachable_states_satisfy_invariants wEnv 50 1 "d" 0 10 false 10 3 100
      [Op.buy wEnv 7, Op.finalize wEnv "prng"] [Op.claim wEnv 7] (by decide) rfl⟩

/-- C4: a successful `buy_ticket` (always quantity 1) increments
`tickets_sold` by one and returns the new total; appends exactly the buyer to
the ticket ledger; mints the ticket with id `NextTicketId + 1` (the counter
starts absent, so the first id is 1) and `ticket_number` equal to the
pre-call `tickets_sold + 1`; increments the buyer's ticket count by one; and
publishes exactly one `TicketPurchased` event carrying the new id, quantity
1, the amount paid (`ticket_price`) and the timestamp.  The u32 bounds
hypotheses mirror the machine types and hold in every reachable state. -/
theorem buy_ticket_success_postconditions (s : ContractState) (r : Raffle)
    (env : LedgerEnv) (b n : Nat) (hr : s.raffle = some r)
    (hmax : r.max_tickets < U32)
    (hnid : s.nextTicketIdVal.getD 0 + 1 < U32)
    (hcnt : read_ticket_count s b + 1 < U32)
    (hok : (Contract.buy_ticket s env b).res = Except.ok n) :
    (Contract.buy_ticket s env b).state.raffle =
      some { r with tickets_sold := r.tickets_sold + 1 } ∧
    n = r.tickets_sold + 1 ∧
    (Contract.buy_ticket s env b).state.tickets = s.tickets ++ [b] ∧
    (Contract.buy_ticket s env b).state.nextTicketIdVal =
      some (s.nextTicketIdVal.getD 0 + 1) ∧
    getAssoc (s.nextTicketIdVal.getD 0 + 1) (Contract.buy_ticket s env b).state.ticketsById =
      some ⟨s.nextTicketIdVal.getD 0 + 1, b, env.timestamp, r.tickets_sold + 1⟩ ∧
    read_ticket_count (Contract.buy_ticket s env b).state b = read_ticket_count s b + 1 ∧
    eventsOf (Contract.buy_ticket s env b).trace =
      [Event.TicketPurchased b [s.nextTicketIdVal.getD 0 + 1] 1 r.ticket_price
        env.timestamp] := by
  unfold Contract.buy_ticket at hok ⊢
  rw [hr] at hok ⊢
  dsimp only at hok ⊢
  split_ifs at hok ⊢ with h1 h2 h3 h4
  unfold next_ticket_id at hok ⊢
  dsimp only at hok ⊢
  have hsold : (r.tickets_sold + 1) % U32 = r.tickets_sold + 1 :=
    Nat.mod_eq_of_lt (by omega)
  have hid : (s.nextTicketIdVal.getD 0 + 1) % U32 = s.nextTicketIdVal.getD 0 + 1 :=
    Nat.mod_eq_of_lt hnid
  have hc : (read_ticket_count s b + 1) % U32 = read_ticket_count s b + 1 :=
    Nat.mod_eq_of_lt hcnt
  refine ⟨?_, ?_, ?_, ?_, ?_, ?_, ?_⟩
  · rw [hsold]
  · rw [hsold] at hok
    exact ((Except.ok.injEq _ _).mp hok).symm
  · rfl
  · rw [hid]
  · rw [hid, hsold, getAssoc_setAssoc]
  · rw [read_ticket_count]
    dsimp only
    rw [getAssoc_setAssoc]
    dsimp only [Option.getD]
    rw [hc]
  · rw [hid]
    rfl

theorem buy_ticket_success_postconditions_witness :
    (freshState.raffle = some freshRaffle ∧ freshRaffle.max_tickets < U32 ∧
      freshState.nextTicketIdVal.getD 0 + 1 < U32 ∧
      read_ticket_count freshState 7 + 1 < U32 ∧
      (Contract.buy_ticket freshState wEnv 7).res = Except.ok 1) ∧
    ((Contract.buy_ticket freshState wEnv 7).state.raffle =
        some { freshRaffle with tickets_sold := freshRaffle.tickets_sold + 1 } ∧
      1 = freshRaffle.tickets_sold + 1 ∧
      (Contract.buy_ticket freshState wEnv 7).state.tickets = freshState.tickets ++ [7] ∧
      (Contract.buy_ticket freshState wEnv 7).state.nextTicketIdVal =
        some (freshState.nextTicketIdVal.getD 0 + 1) ∧
      getAssoc (freshState.nextTicketIdVal.getD 0 + 1)
          (Contract.buy_ticket freshState wEnv 7).state.ticketsById =
        some ⟨freshState.nextTicketIdVal.getD 0 + 1, 7, wEnv.timestamp,
          freshRaffle.tickets_sold + 1⟩ ∧
      read_ticket_count (Contract.buy_ticket freshState wEnv 7).state 7 =
        read_ticket_count freshState 7 + 1 ∧
      eventsOf (Contract.buy_ticket freshState wEnv 7).trace =
        [Event.TicketPurchased 7 [freshState.nextTicketIdVal.getD 0 + 1] 1
          freshRaffle.ticket_price wEnv.timestamp]) :=
  ⟨⟨rfl, by decide, by decide, by decide, rfl⟩,
    buy_ticket_success_postconditions freshState freshRaffle wEnv 7 1 rfl
      (by decide) (by decide) (by decide) rfl⟩

/-- C5 counterexample: on an active, sold-out raffle (not past its deadline)
`buy_ticket` fails with `Error::TicketsSoldOut` (discriminant 3), which is a
different variant from the `Error::InsufficientTickets` (discriminant 10)
the claim names. -/
theorem sold_out_buy_error_cex :
    (Contract.buy_ticket soldOutState wEnv 5).res = Except.error Error.TicketsSoldOut ∧
    Error.TicketsSoldOut ≠ Error.InsufficientTickets := by
  exact ⟨rfl, by decide⟩

/-- C5 (amended): on every active raffle not past its deadline with
`tickets_sold >= max_tickets`, any `buy_ticket` call fails with
`TicketsSoldOut` (not `InsufficientTickets`), transfers nothing and leaves
state unchanged; and under any sequence of `buy_ticket` calls from a state
with `tickets_sold <= max_tickets` the bound is preserved, so `tickets_sold`
never exceeds `max_tickets`. -/
theorem sold_out_buy_fails_state_unchanged (s : ContractState) (r : Raffle)
    (env : LedgerEnv) (b : Nat) (s2 : ContractState) (r2 : Raffle)
    (buys : List (LedgerEnv × Nat))
    (hr : s.raffle = some r) (ha : r.is_active = true)
    (ht : r.end_time = 0 ∨ env.timestamp ≤ r.end_time)
    (hfull : r.max_tickets ≤ r.tickets_sold) :
    (Contract.buy_ticket s env b).res = Except.error Error.TicketsSoldOut ∧
    (Contract.buy_ticket s env b).state = s ∧
    transfersOf (Contract.buy_ticket s env b).trace = [] ∧
    (s2.raffle = some r2 → r2.tickets_sold ≤ r2.max_tickets → r2.max_tickets < U32 →
      ∃ r', (runBuys s2 buys).raffle = some r' ∧ r'.tickets_sold ≤ r'.max_tickets) := by
  have hmain :
      (Contract.buy_ticket s env b).res = Except.error Error.TicketsSoldOut ∧
      (Contract.buy_ticket s env b).state = s ∧
      transfersOf (Contract.buy_ticket s env b).trace = [] := by
    unfold Contract.buy_ticket
    rw [hr]
    dsimp only
    split_ifs with h1 h2
    · rw [h1] at ha; cases ha
    · rcases ht with ht0 | htle
      · exact absurd ht0 h2.1
      · omega
    · exact ⟨rfl, rfl, rfl⟩
  refine ⟨hmain.1, hmain.2.1, hmain.2.2, fun hr2 hb2 hm2 => ?_⟩
  obtain ⟨r', hr', hb', _⟩ := runSold buys s2 ⟨r2, hr2, hb2, hm2⟩
  exact ⟨r', hr', hb'⟩

theorem sold_out_buy_fails_state_unchanged_witness :
    (soldOutState.raffle = some soldOutRaffle ∧ soldOutRaffle.is_active = true ∧
      (soldOutRaffle.end_time = 0 ∨ wEnv.timestamp ≤ soldOutRaffle.end_time) ∧
      soldOutRaffle.max_tickets ≤ soldOutRaffle.tickets_sold) ∧
    ((Contract.buy_ticket soldOutState wEnv 5).res = Except.error Error.TicketsSoldOut ∧
      (Contract.buy_ticket soldOutState wEnv 5).state = soldOutState ∧
      transfersOf (Contract.buy_ticket soldOutState wEnv 5).trace = [] ∧
      (soldOutState.raffle = some soldOutRaffle →
        soldOutRaffle.tickets_sold ≤ soldOutRaffle.max_tickets →
        soldOutRaffle.max_tickets < U32 →
        ∃ r', (runBuys soldOutState [(wEnv, 5)]).raffle = some r' ∧
          r'.tickets_sold ≤ r'.max_tickets)) :=
  ⟨⟨rfl, rfl, Or.inl rfl, by decide⟩,
    sold_out_buy_fails_state_unchanged soldOutState soldOutRaffle wEnv 5
      soldOutState soldOutRaffle [(wEnv, 5)] rfl rfl (Or.inl rfl) (by decide)⟩

/-- C6 counterexample: with `allow_multiple = false` and a recorded ticket
count of 1 for buyer 9, a further `buy_ticket` by 9 on an inactive raffle
fails with `RaffleInactive`, not `MultipleTicketsNotAllowed` — the activity
check runs first, so the error is not "always" `MultipleTicketsNotAllowed`
regardless of the raffle's other state. -/
theorem repeat_buy_error_depends_on_state_cex :
    inactiveRaffle.allow_multiple = false ∧ 0 < read_ticket_count inactiveState 9 ∧
    (Contract.buy_ticket inactiveState wEnv 9).res = Except.error Error.RaffleInactive ∧
    Error.RaffleInactive ≠ Error.MultipleTicketsNotAllowed := by
  exact ⟨rfl, by decide, rfl, by decide⟩

/-- C6 (amended): on an active raffle that is not past its deadline and not
sold out, with `allow_multiple = false`, any further `buy_ticket` by a buyer
with recorded ticket count > 0 fails with `MultipleTicketsNotAllowed`,
transfers nothing and leaves state unchanged; when the raffle is inactive,
ended or sold out the earlier checks fire first and return their own
errors. -/
theorem second_ticket_not_allowed (s : ContractState) (r : Raffle) (env : LedgerEnv)
    (b : Nat) (hr : s.raffle = some r) (ha : r.is_active = true)
    (ht : r.end_time = 0 ∨ env.timestamp ≤ r.end_time)
    (hroom : r.tickets_sold < r.max_tickets)
    (hallow : r.allow_multiple = false) (hcnt : 0 < read_ticket_count s b) :
    (Contract.buy_ticket s env b).res = Except.error Error.MultipleTicketsNotAllowed ∧
    (Contract.buy_ticket s env b).state = s ∧
    transfersOf (Contract.buy_ticket s env b).trace = [] := by
  unfold Contract.buy_ticket
  rw [hr]
  dsimp only
  split_ifs with h1 h2 h3 h4
  · rw [h1] at ha; cases ha
  · rcases ht with ht0 | htle
    · exact absurd ht0 h2.1
    · omega
  · omega
  · exact ⟨rfl, rfl, rfl⟩
  · exact absurd ⟨hallow, hcnt⟩ h4

theorem second_ticket_not_allowed_witness :
    (oneTicketState.raffle = some oneTicketRaffle ∧ oneTicketRaffle.is_active = true ∧
      (oneTicketRaffle.end_time = 0 ∨ wEnv.timestamp ≤ oneTicketRaffle.end_time) ∧
      oneTicketRaffle.tickets_sold < oneTicketRaffle.max_tickets ∧
      oneTicketRaffle.allow_multiple = false ∧ 0 < read_ticket_count oneTicketState 9) ∧
    ((Contract.buy_ticket oneTicketState wEnv 9).res =
        Except.error Error.MultipleTicketsNotAllowed ∧
      (Contract.buy_ticket oneTicketState wEnv 9).state = oneTicketState ∧
      transfersOf (Contract.buy_ticket oneTicketState wEnv 9).trace = []) :=
  ⟨⟨rfl, rfl, Or.inl rfl, by decide, rfl, by decide⟩,
    second_ticket_not_allowed oneTicketState oneTicketRaffle wEnv 9 rfl rfl
      (Or.inl rfl) (by decide) rfl (by decide)⟩

/-- C7: for a successful `finalize_raffle` (active raffle, deadline passed
or absent, at least one ticket sold, ledger length equal to `tickets_sold`
as in every reachable state, with the u32/u64 bounds of the machine types),
the winner is the ticket-ledger entry at index
`(timestamp + sequence) % tickets_sold`, and the entire outcome — result,
post state and effect trace — is the same for every randomness-source
label, which appears verbatim (and only) in the published
`RaffleFinalized` event. -/
theorem finalize_winner_formula_label_independent (s : ContractState) (r : Raffle)
    (env : LedgerEnv) (hr : s.raffle = some r) (ha : r.is_active = true)
    (ht : r.end_time = 0 ∨ r.end_time ≤ env.timestamp)
    (hn : r.tickets_sold ≠ 0)
    (hlen : s.tickets.length = r.tickets_sold)
    (h32 : r.tickets_sold < U32)
    (hsum : env.timestamp + env.sequence < U64) :
    ∀ src : String,
      (Contract.finalize_raffle s env src).res =
        Except.ok (s.tickets.getD ((env.timestamp + env.sequence) % r.tickets_sold) 0) ∧
      (Contract.finalize_raffle s env src).state =
        { s with raffle := some { r with is_active := false, winner := some (s.tickets.getD ((env.timestamp + env.sequence) % r.tickets_sold) 0) } } ∧
      (Contract.finalize_raffle s env src).trace =
        [Effect.requireAuth r.creator, Effect.storageWrite DataKey.Raffle,
         Effect.publish (Event.RaffleFinalized
           (s.tickets.getD ((env.timestamp + env.sequence) % r.tickets_sold) 0)
           ((env.timestamp + env.sequence) % r.tickets_sold)
           r.tickets_sold src env.timestamp)] := by
  intro src
  have hpos : 0 < r.tickets_sold := Nat.pos_of_ne_zero hn
  have hseed : (env.timestamp + env.sequence) % U64 = env.timestamp + env.sequence :=
    Nat.mod_eq_of_lt hsum
  have hidx : (env.timestamp + env.sequence) % r.tickets_sold < r.tickets_sold :=
    Nat.mod_lt _ hpos
  have hidx2 : ((env.timestamp + env.sequence) % r.tickets_sold) % U32 =
      (env.timestamp + env.sequence) % r.tickets_sold :=
    Nat.mod_eq_of_lt (lt_trans hidx h32)
  unfold Contract.finalize_raffle
  rw [hr]
  dsimp only
  split_ifs with h1 h2
  · rw [h1] at ha; cases ha
  · rcases ht with ht0 | htle
    · exact absurd ht0 h2.1
    · omega
  · simp [read_tickets, hlen, hseed, hidx2]

theorem finalize_winner_formula_label_independent_witness :
    (twoTicketState.raffle = some twoTicketRaffle ∧ twoTicketRaffle.is_active = true ∧
      (twoTicketRaffle.end_time = 0 ∨ twoTicketRaffle.end_time ≤ wEnv.timestamp) ∧
      twoTicketRaffle.tickets_sold ≠ 0 ∧
      twoTicketState.tickets.length = twoTicketRaffle.tickets_sold ∧
      twoTicketRaffle.tickets_sold < U32 ∧ wEnv.timestamp + wEnv.sequence < U64) ∧
    ((Contract.finalize_raffle twoTicketState wEnv "prng").res =
        Except.ok (twoTicketState.tickets.getD
          ((wEnv.timestamp + wEnv.sequence) % twoTicketRaffle.tickets_sold) 0) ∧
      (Contract.finalize_raffle twoTicketState wEnv "prng").state =
        { twoTicketState with raffle := some { twoTicketRaffle with is_active := false, winner := some (twoTicketState.tickets.getD ((wEnv.timestamp + wEnv.sequence) % twoTicketRaffle.tickets_sold) 0) } } ∧
      (Contract.finalize_raffle twoTicketState wEnv "prng").trace =
        [Effect.requireAuth twoTicketRaffle.creator, Effect.storageWrite DataKey.Raffle,
         Effect.publish (Event.RaffleFinalized
           (twoTicketState.tickets.getD
             ((wEnv.timestamp + wEnv.sequence) % twoTicketRaffle.tickets_sold) 0)
           ((wEnv.timestamp + wEnv.sequence) % twoTicketRaffle.tickets_sold)
           twoTicketRaffle.tickets_sold "prng" wEnv.timestamp)]) :=
  ⟨⟨rfl, rfl, Or.inl rfl, by decide, rfl, by decide, by decide⟩,
    finalize_winner_formula_label_independent twoTicketState twoTicketRaffle wEnv rfl rfl
      (Or.inl rfl) (by decide) rfl (by decide) (by decide) "prng"⟩

/-- C8 (code bug): with the `NextTicketId` counter at the top of the u32
range (`4294967295 = 2^32 - 1`), the unchecked `current + 1` of
`next_ticket_id` wraps to 0 and `buy_ticket` still succeeds (returning
`Ok`), minting ticket id 0 and storing the wrapped counter; no
`ArithmeticOverflow` error is ever produced, although the source declares
that variant. -/
theorem ticket_counter_wraps_unchecked :
    (next_ticket_id topIdState).fst = 0 ∧
    (Contract.buy_ticket topIdState wEnv 7).res = Except.ok 2 ∧
    (Contract.buy_ticket topIdState wEnv 7).state.nextTicketIdVal = some 0 ∧
    eventsOf (Contract.buy_ticket topIdState wEnv 7).trace =
      [Event.TicketPurchased 7 [0] 1 10 100] := by
  exact ⟨rfl, rfl, rfl, rfl⟩

/-- C9 (spec-modelled): `get_all_raffle_ids` clamps the limit to 100,
returns exactly `min(clamped limit, total - offset)` ids (none when
`offset >= total`), reports `{total, offset, clamped limit, has_more}` with
`has_more` true iff `offset + returned < total`, and with
`newest_first = true` serves the ids in reverse insertion order, reading the
registry without modifying it. -/
theorem get_all_raffle_ids_pagination (registry : List Nat) (offset limit : Nat)
    (nf : Bool) :
    (get_all_raffle_ids registry offset limit nf).meta.limit = min limit 100 ∧
    (get_all_raffle_ids registry offset limit nf).meta.limit ≤ 100 ∧
    (get_all_raffle_ids registry offset limit nf).data.length =
      min (min limit 100) (registry.length - offset) ∧
    (registry.length ≤ offset → (get_all_raffle_ids registry offset limit nf).data = []) ∧
    (get_all_raffle_ids registry offset limit nf).meta.total = registry.length ∧
    (get_all_raffle_ids registry offset limit nf).meta.offset = offset ∧
    ((get_all_raffle_ids registry offset limit nf).meta.has_more = true ↔
      offset + (get_all_raffle_ids registry offset limit nf).data.length
        < registry.length) ∧
    (nf = true → ∀ i, i < (get_all_raffle_ids registry offset limit nf).data.length →
      (get_all_raffle_ids registry offset limit nf).data[i]? =
        registry[registry.length - 1 - (offset + i)]?) := by
  have hlen : (get_all_raffle_ids registry offset limit nf).data.length =
      min (min limit 100) (registry.length - offset) := by
    cases nf <;> simp [get_all_raffle_ids, MAX_PAGE_LIMIT]
  refine ⟨rfl, Nat.min_le_right _ _, hlen, ?_, rfl, rfl, ?_, ?_⟩
  · intro h
    have h0 : (get_all_raffle_ids registry offset limit nf).data.length = 0 := by
      rw [hlen]; omega
    exact List.eq_nil_of_length_eq_zero h0
  · exact decide_eq_true_iff
  · intro hnf i hi
    subst hnf
    rw [hlen] at hi
    have hiL : i < min limit 100 := lt_of_lt_of_le hi (Nat.min_le_left _ _)
    have hio : offset + i < registry.length := by omega
    show ((registry.reverse.drop offset).take (min limit 100))[i]? =
      registry[registry.length - 1 - (offset + i)]?
    rw [List.getElem?_take_of_lt hiL, List.getElem?_drop,
      List.getElem?_reverse (by simpa using hio)]

theorem get_all_raffle_ids_pagination_witness :
    ((get_all_raffle_ids [10, 11, 12, 13, 14] 0 3 true).meta.limit = min 3 100 ∧
      (get_all_raffle_ids [10, 11, 12, 13, 14] 0 3 true).meta.limit ≤ 100 ∧
      (get_all_raffle_ids [10, 11, 12, 13, 14] 0 3 true).data.length =
        min (min 3 100) ([10, 11, 12, 13, 14].length - 0) ∧
      ([10, 11, 12, 13, 14].length ≤ 0 →
        (get_all_raffle_ids [10, 11, 12, 13, 14] 0 3 true).data = []) ∧
      (get_all_raffle_ids [10, 11, 12, 13, 14] 0 3 true).meta.total =
        [10, 11, 12, 13, 14].length ∧
      (get_all_raffle_ids [10, 11, 12, 13, 14] 0 3 true).meta.offset = 0 ∧
      ((get_all_raffle_ids [10, 11, 12, 13, 14] 0 3 true).meta.has_more = true ↔
        0 + (get_all_raffle_ids [10, 11, 12, 13, 14] 0 3 true).data.length
          < [10, 11, 12, 13, 14].length) ∧
      (true = true → ∀ i,
        i < (get_all_raffle_ids [10, 11, 12, 13, 14] 0 3 true).data.length →
        (get_all_raffle_ids [10, 11, 12, 13, 14] 0 3 true).data[i]? =
          [10, 11, 12, 13, 14][[10, 11, 12, 13, 14].length - 1 - (0 + i)]?)) ∧
    (get_all_raffle_ids [10, 11, 12, 13, 14] 0 3 true).data[0]? = some 14 :=
  ⟨get_all_raffle_ids_pagination [10, 11, 12, 13, 14] 0 3 true, by decide⟩

/-- C10: after factory initialization, `create_raffle` appends the creator's
own address to the `RaffleInstances` registry and returns it; the result is
identical for every configuration (none of the raffle parameters is
validated or persisted), and no new contract instance is produced — the
registry grows by exactly the creator address. -/
theorem create_raffle_appends_creator (s : FactoryState) (insts : List Nat)
    (creator : Nat) (cfg cfg2 : RaffleConfig)
    (hw : s.wasm_hash.isSome = true) (hi : s.instances = some insts) :
    RaffleFactory.create_raffle s creator cfg =
      some ({ s with instances := some (insts ++ [creator]) }, creator) ∧
    RaffleFactory.create_raffle s creator cfg =
      RaffleFactory.create_raffle s creator cfg2 ∧
    RaffleFactory.get_raffles { s with instances := some (insts ++ [creator]) } =
      RaffleFactory.get_raffles s ++ [creator] := by
  obtain ⟨wh, hwh⟩ := Option.isSome_iff_exists.mp hw
  unfold RaffleFactory.create_raffle
  rw [hwh, hi]
  exact ⟨rfl, rfl, by simp [RaffleFactory.get_raffles, hi]⟩

theorem create_raffle_appends_creator_witness :
    (wFactory.wasm_hash.isSome = true ∧ wFactory.instances = some [5, 6]) ∧
    (RaffleFactory.create_raffle wFactory 7 wConfig =
        some ({ wFactory with instances := some ([5, 6] ++ [7]) }, 7) ∧
      RaffleFactory.create_raffle wFactory 7 wConfig =
        RaffleFactory.create_raffle wFactory 7 wConfig2 ∧
      RaffleFactory.get_raffles { wFactory with instances := some ([5, 6] ++ [7]) } =
        RaffleFactory.get_raffles wFactory ++ [7]) :=
  ⟨⟨rfl, rfl⟩, create_raffle_appends_creator wFactory [5, 6] 7 wConfig wConfig2 rfl rfl⟩
